import Mathlib

/-!
Shallow embedding of the cairo-lint core (crates/cairo-lint-core/src/plugin.rs and
empty_with_brackets.rs): the diagnostic data model, the message classifier
`diagnostic_kind_from_message`, the match rule `check_destruct_match`, the
enum-pattern rule `check_variant` / `is_redundant_parentheses`, and the
`AnalyzerPlugin::diagnostics` entry point (`analyze`).

Syntax trees are supplied by the external `cairo_lang_syntax` layer; here they
are embedded as inductive types whose exact source text is computed by a
rendering function (`patText`), mirroring `SyntaxNode::get_text`. Rust panics
(`unwrap`, out-of-bounds indexing) are embedded as `Option.none` results.
-/

namespace CairoLint

/-- Severity of a plugin diagnostic (cairo_lang_diagnostics::Severity). -/
inductive Severity where
  | warning
  | error
deriving DecidableEq, Repr

/-- PluginDiagnostic: stable location pointer, message text, severity.
Stable pointers are embedded as natural-number identifiers. -/
structure PluginDiagnostic where
  stable_ptr : Nat
  message : String
  severity : Severity
deriving DecidableEq, Repr

/-- CairoLintKind (plugin.rs lines 21-27). -/
inductive CairoLintKind where
  | DestructMatch
  | MatchForEquality
  | EmptyWithBrackets
  | Unknown
deriving DecidableEq, Repr

/-- CairoLint::DESTRUCT_MATCH (plugin.rs line 39). -/
def DESTRUCT_MATCH : String :=
  "you seem to be trying to use `match` for destructuring a single pattern. Consider using `if let`"

/-- CairoLint::MATCH_FOR_EQUALITY (plugin.rs line 41). -/
def MATCH_FOR_EQUALITY : String :=
  "you seem to be trying to use `match` for an equality check. Consider using `if`"

/-- CairoLint::EMPTY_WITH_BRACKETS (plugin.rs line 43). -/
def EMPTY_WITH_BRACKETS : String :=
  "enum variant has empty brackets"

/-- The message emitted by `check_variant` (plugin.rs line 115). -/
def REDUNDANT_PARENS_MSG : String :=
  "This enum variant has redundant parentheses and can be simplified."

/-- diagnostic_kind_from_message (plugin.rs lines 29-36): exact string match
against the three canonical constants, anything else is Unknown. -/
def diagnostic_kind_from_message (message : String) : CairoLintKind :=
  if message = DESTRUCT_MATCH then CairoLintKind.DestructMatch
  else if message = MATCH_FOR_EQUALITY then CairoLintKind.MatchForEquality
  else if message = EMPTY_WITH_BRACKETS then CairoLintKind.EmptyWithBrackets
  else CairoLintKind.Unknown

/-- Syntax node kinds (the subset of cairo_lang_syntax SyntaxKind the lint
inspects, plus a catch-all for every other kind). -/
inductive SyntaxKind where
  | ExprMatch
  | PatternEnum
  | PatternStruct
  | PatternUnderscore
  | PatternTuple
  | PatternIdentifier
  | ItemExternFunction
  | OtherKind
deriving DecidableEq, Repr

/-- Patterns (cairo_lang_syntax ast::Pattern, the variants the lint
distinguishes).  `enum path inner` models PatternEnum: `inner = none` is an
enum pattern with no parentheses (empty OptionPatternEnumInnerPattern node);
`inner = some p` is `path(p)`.  `struct text` carries the struct pattern's
exact rendered source text, the only thing the lint reads from it.
`other text` covers every remaining pattern variant via its source text. -/
inductive Pat where
  | underscore
  | tuple (elems : List Pat)
  | ident (name : String)
  | enum (path : String) (inner : Option Pat)
  | struct (text : String)
  | other (text : String)

mutual
/-- Exact source text of a pattern node (SyntaxNode::get_text). -/
def patText : Pat → String
  | Pat.underscore => "_"
  | Pat.tuple es => "(" ++ patListText es ++ ")"
  | Pat.ident n => n
  | Pat.enum path none => path
  | Pat.enum path (some p) => path ++ "(" ++ patText p ++ ")"
  | Pat.struct t => t
  | Pat.other t => t

/-- Comma-separated rendering of a pattern list. -/
def patListText : List Pat → String
  | [] => ""
  | [p] => patText p
  | p :: ps => patText p ++ ", " ++ patListText ps
end

/-- Exact source text of `pat.pattern(db)` for a PatternEnum: the
OptionPatternEnumInnerPattern child node, which renders as "" when the enum
pattern has no parentheses and as "(inner)" when it does (plugin.rs line 88). -/
def enumInnerText : Option Pat → String
  | none => ""
  | some p => "(" ++ patText p ++ ")"

/-- SyntaxNode::kind for a pattern node. -/
def patKind : Pat → SyntaxKind
  | Pat.underscore => SyntaxKind.PatternUnderscore
  | Pat.tuple _ => SyntaxKind.PatternTuple
  | Pat.ident _ => SyntaxKind.PatternIdentifier
  | Pat.enum _ _ => SyntaxKind.PatternEnum
  | Pat.struct _ => SyntaxKind.PatternStruct
  | Pat.other _ => SyntaxKind.OtherKind

mutual
/-- Expressions (ast::Expr, the variants check_destruct_match distinguishes):
a block of statements, a tuple expression with its element list, or anything
else. -/
inductive Expr_ where
  | block (statements : List Stmt)
  | tuple (exprs : List Expr_)
  | otherExpr

/-- Statements (ast::Statement): an expression statement or anything else. -/
inductive Stmt where
  | exprStmt (e : Expr_)
  | otherStmt
end

/-- A match arm: its pattern list (arm.patterns(db).elements(db)) and its body
expression (arm.expression(db)). -/
structure MatchArm where
  patterns : List Pat
  expression : Expr_

/-- A match expression: its arm list and its stable pointer. -/
structure ExprMatch where
  arms : List MatchArm
  stable_ptr : Nat

/-- Does `leadsWith pat hay` hold: is `pat` a prefix of `hay`? -/
def leadsWith : List Char → List Char → Bool
  | [], _ => true
  | _ :: _, [] => false
  | p :: ps, h :: hs => p == h && leadsWith ps hs

/-- Substring containment on character lists (Rust str::contains). -/
def containsSub (pat : List Char) : List Char → Bool
  | [] => pat.isEmpty
  | c :: rest => leadsWith pat (c :: rest) || containsSub pat rest

/-- Rust `s.contains(pat)`: substring containment on strings. -/
def strContains (s pat : String) : Bool :=
  containsSub pat.toList s.toList

/-- One iteration of the arm loop of check_destruct_match (plugin.rs lines
55-95), threading the pair (is_single_armed, is_destructuring).  The Rust loop
reads `patterns[0]`, which panics when the arm's pattern list is empty: that
panic is embedded as `none`.  In the Underscore branch the body is inspected:
a Block with zero statements sets is_single_armed directly; then `tuple_expr`
is Some for a Block whose single statement is an expression statement wrapping
a tuple, or for a body that is directly a tuple, and is_single_armed is OR-ed
with that tuple's element list being empty.  The Enum and Struct branches
ASSIGN (not OR) is_destructuring from the rendered-text emptiness tests. -/
def stepArm (flags : Bool × Bool) (arm : MatchArm) : Option (Bool × Bool) :=
  match arm.patterns.head? with
  | none => none
  | some Pat.underscore =>
      let isa := flags.1
      let isa :=
        match arm.expression with
        | Expr_.block sts => if sts.isEmpty then true else isa
        | _ => isa
      let tuple_expr : Option (List Expr_) :=
        match arm.expression with
        | Expr_.block sts =>
            if sts.length = 1 then
              match sts.head? with
              | some (Stmt.exprStmt (Expr_.tuple es)) => some es
              | _ => none
            else none
        | Expr_.tuple es => some es
        | _ => none
      some ((match tuple_expr with | some l => l.isEmpty | none => false) || isa, flags.2)
  | some (Pat.enum _ inner) => some (flags.1, !(enumInnerText inner).isEmpty)
  | some (Pat.struct t) => some (flags.1, !t.isEmpty)
  | some _ => some flags

/-- CairoLint::check_destruct_match (plugin.rs lines 45-110).  Returns the
list of diagnostics pushed (at most one), or `none` when the Rust code would
panic on `patterns[0]`.  The arm loop runs only when the arm count is exactly
two; the final (is_single_armed, is_destructuring) pair selects the
diagnostic, anchored at the match expression's stable pointer. -/
def check_destruct_match (m : ExprMatch) : Option (List PluginDiagnostic) :=
  match (if m.arms.length = 2
         then List.foldlM stepArm (false, false) m.arms
         else some (false, false)) with
  | none => none
  | some (true, false) =>
      some [⟨m.stable_ptr, MATCH_FOR_EQUALITY, Severity.warning⟩]
  | some (true, true) =>
      some [⟨m.stable_ptr, DESTRUCT_MATCH, Severity.warning⟩]
  | some (_, _) => some []

/-- CairoLint::is_redundant_parentheses (plugin.rs lines 122-130, duplicated
in empty_with_brackets.rs lines 23-31): a pattern node is flagged when its
kind is PatternEnum and its exact rendered source text contains "()" . -/
def is_redundant_parentheses (pattern : Pat) : Bool :=
  if patKind pattern = SyntaxKind.PatternEnum then
    strContains (patText pattern) "()"
  else
    false

/-- CairoLint::check_variant (plugin.rs lines 111-120, duplicated in
empty_with_brackets.rs lines 12-21): emit a Warning at the pattern's own
stable pointer when is_redundant_parentheses holds.  The pattern's stable
pointer is passed alongside the pattern. -/
def check_variant (variant : Pat) (variant_ptr : Nat) : Option PluginDiagnostic :=
  if is_redundant_parentheses variant then
    some ⟨variant_ptr, REDUNDANT_PARENS_MSG, Severity.warning⟩
  else
    none

/-- A descendant syntax node of a free function's body, in document order:
a match expression, a pattern (with its stable pointer), or any other node
identified only by its kind. -/
inductive SyntaxNode where
  | matchNode (m : ExprMatch)
  | patternNode (p : Pat) (ptr : Nat)
  | otherNode (k : SyntaxKind)

/-- SyntaxNode::kind. -/
def nodeKind : SyntaxNode → SyntaxKind
  | SyntaxNode.matchNode _ => SyntaxKind.ExprMatch
  | SyntaxNode.patternNode p _ => patKind p
  | SyntaxNode.otherNode k => k

/-- The per-descendant dispatch of CairoLint::diagnostics (plugin.rs lines
145-161): ExprMatch nodes go to check_destruct_match, PatternEnum nodes to
check_variant, every other kind (ItemExternFunction included) contributes
nothing.  `none` propagates a panic. -/
def visitDescendant (node : SyntaxNode) : Option (List PluginDiagnostic) :=
  match node with
  | SyntaxNode.matchNode m => check_destruct_match m
  | SyntaxNode.patternNode p ptr =>
      if patKind p = SyntaxKind.PatternEnum then
        some (check_variant p ptr).toList
      else
        some []
  | SyntaxNode.otherNode _ => some []

/-- The syntax subtree of a resolved free function: its descendant nodes in
document order. -/
structure FunctionBody where
  descendants : List SyntaxNode

/-- A module item (the cases of ModuleItemId that CairoLint::diagnostics
distinguishes).  For a free function, `resolution` is the result of
`db.module_free_function_by_id`: `none` models a failed lookup (Err, or
Ok(None)). -/
inductive ModuleItemId where
  | freeFunction (resolution : Option FunctionBody)
  | externFunction
  | otherItem

/-- Sequentially run `f` over a list, concatenating the diagnostic lists;
`none` (a panic) anywhere aborts the whole computation. -/
def collect (f : α → Option (List PluginDiagnostic)) :
    List α → Option (List PluginDiagnostic)
  | [] => some []
  | x :: xs => do
      let d ← f x
      let rest ← collect f xs
      pure (d ++ rest)

/-- Per-item contribution inside the item loop of CairoLint::diagnostics
(plugin.rs lines 139-165).  A free function's resolution is unwrapped with
`.unwrap().unwrap()`: a failed lookup panics (`none`), otherwise every
descendant of its body is visited.  ExternFunction and all other item kinds
contribute nothing. -/
def itemDiagnostics : ModuleItemId → Option (List PluginDiagnostic)
  | ModuleItemId.freeFunction none => none
  | ModuleItemId.freeFunction (some body) => collect visitDescendant body.descendants
  | ModuleItemId.externFunction => some []
  | ModuleItemId.otherItem => some []

/-- AnalyzerPlugin::diagnostics for CairoLint (plugin.rs lines 134-168), the
`analyze` entry point.  Input is the result of `db.module_items`: an Err
(`none`) returns the empty diagnostic list gracefully (the let-else at lines
136-138); otherwise the items are processed in order.  The outer Option is a
panic escaping the whole pass. -/
def analyze (module_items : Option (List ModuleItemId)) :
    Option (List PluginDiagnostic) :=
  match module_items with
  | none => some []
  | some items => collect itemDiagnostics items

/-! Predicates naming the conditions of the spec's DestructuringMatchRule,
phrased over the same arm data check_destruct_match reads (an arm is
classified by the first pattern of its pattern list). -/

/-- The arm is a wildcard arm with an empty body: its first pattern is `_`
and its body is a block with zero statements, or a block whose single
statement is an expression statement wrapping a zero-element tuple, or
directly a zero-element tuple expression. -/
def emptyWildcardArm (a : MatchArm) : Bool :=
  match a.patterns.head? with
  | some Pat.underscore =>
      (match a.expression with
       | Expr_.block sts =>
           sts.isEmpty ||
             (match sts with
              | [Stmt.exprStmt (Expr_.tuple es)] => es.isEmpty
              | _ => false)
       | Expr_.tuple es => es.isEmpty
       | _ => false)
  | _ => false

/-- The arm is a destructuring arm: its first pattern is an enum pattern
whose inner node's rendered text is non-empty, or a struct pattern whose
rendered text is non-empty. -/
def destructuringArm (a : MatchArm) : Bool :=
  match a.patterns.head? with
  | some (Pat.enum _ inner) => !(enumInnerText inner).isEmpty
  | some (Pat.struct t) => !t.isEmpty
  | _ => false

/-- The arm's first pattern is an enum or struct pattern (the branches of the
loop that assign is_destructuring). -/
def enumStructHead (a : MatchArm) : Bool :=
  match a.patterns.head? with
  | some (Pat.enum _ _) => true
  | some (Pat.struct _) => true
  | _ => false

/-- The update the arm loop applies to is_destructuring: enum and struct
first patterns overwrite it with their emptiness test, every other arm leaves
it unchanged. -/
def armDestrFlag (a : MatchArm) (prev : Bool) : Bool :=
  match a.patterns.head? with
  | some (Pat.enum _ inner) => !(enumInnerText inner).isEmpty
  | some (Pat.struct t) => !t.isEmpty
  | _ => prev

/-! Concrete inputs used by the scenario theorems. -/

/-- Scenario A of the spec: `match shape ... Shape::Circle(()) => ..., _ => ...`
with both arm bodies empty blocks; stable pointer 7.  The enum pattern's
parenthesized inner node is the zero-element tuple pattern `()`. -/
def scenarioA : ExprMatch :=
  ⟨[⟨[Pat.enum "Shape::Circle" (some (Pat.tuple []))], Expr_.block []⟩,
    ⟨[Pat.underscore], Expr_.block []⟩], 7⟩

/-- Scenario A's match with the enum pattern's parentheses removed entirely:
`Shape::Circle` with no inner node at all. -/
def scenarioABare : ExprMatch :=
  ⟨[⟨[Pat.enum "Shape::Circle" none], Expr_.block []⟩,
    ⟨[Pat.underscore], Expr_.block []⟩], 7⟩

/-- A resolved free-function body whose only relevant descendant is the enum
pattern `Shape::Circle(())` at stable pointer 5. -/
def okFunctionBody : FunctionBody :=
  ⟨[SyntaxNode.patternNode (Pat.enum "Shape::Circle" (some (Pat.tuple []))) 5]⟩

/-- A module with one free function whose semantic lookup fails, followed by a
free function that resolves and produces one diagnostic. -/
def failingModule : List ModuleItemId :=
  [ModuleItemId.freeFunction none, ModuleItemId.freeFunction (some okFunctionBody)]

theorem armDestrFlag_eq (a : MatchArm) (x : Bool) :
    armDestrFlag a x = if enumStructHead a = true then destructuringArm a else x := by
  rcases a with ⟨pats, body⟩
  rcases pats with _ | ⟨p, ps⟩
  · simp [armDestrFlag, enumStructHead, destructuringArm]
  · cases p <;> simp [armDestrFlag, enumStructHead, destructuringArm]

theorem emptyWildcardArm_not_enumStructHead (a : MatchArm)
    (h : emptyWildcardArm a = true) : enumStructHead a = false := by
  rcases a with ⟨pats, body⟩
  rcases pats with _ | ⟨p, ps⟩
  · simp [enumStructHead]
  · cases p <;> simp_all [emptyWildcardArm, enumStructHead]

theorem destructuringArm_enumStructHead (a : MatchArm)
    (h : destructuringArm a = true) : enumStructHead a = true := by
  rcases a with ⟨pats, body⟩
  rcases pats with _ | ⟨p, ps⟩
  · simp_all [destructuringArm]
  · cases p <;> simp_all [destructuringArm, enumStructHead]

theorem emptyWildcardArm_not_destructuringArm (a : MatchArm)
    (h : emptyWildcardArm a = true) : destructuringArm a = false := by
  rcases a with ⟨pats, body⟩
  rcases pats with _ | ⟨p, ps⟩
  · simp [destructuringArm]
  · cases p <;> simp_all [emptyWildcardArm, destructuringArm]

/-- One loop iteration, restated through the named predicates: is_single_armed
is OR-accumulated from emptyWildcardArm, is_destructuring is overwritten per
armDestrFlag; an empty pattern list panics. -/
theorem stepArm_eq (flags : Bool × Bool) (a : MatchArm) (h : a.patterns ≠ []) :
    stepArm flags a = some (emptyWildcardArm a || flags.1, armDestrFlag a flags.2) := by
  rcases a with ⟨pats, body⟩
  rcases pats with _ | ⟨p, ps⟩
  · exact absurd rfl h
  · cases p <;>
      (simp only [stepArm, emptyWildcardArm, armDestrFlag, List.head?_cons,
         Bool.false_or];
       try rfl)
    cases body with
    | block sts =>
        rcases sts with _ | ⟨s, rest⟩
        · simp
        · rcases rest with _ | ⟨s2, rest2⟩
          · cases s with
            | exprStmt e => cases e <;> simp [Bool.or_comm]
            | otherStmt => simp
          · simp
    | tuple es => simp
    | otherExpr => simp

/-- check_destruct_match on a two-armed match, expressed through the final
flag pair: the loop folds stepArm over the two arms. -/
theorem check_destruct_match_two (m : ExprMatch) (a1 a2 : MatchArm)
    (hm : m.arms = [a1, a2]) (h1 : a1.patterns ≠ []) (h2 : a2.patterns ≠ []) :
    check_destruct_match m =
      (if (emptyWildcardArm a1 || emptyWildcardArm a2) = true then
         (if armDestrFlag a2 (armDestrFlag a1 false) = true then
            some [⟨m.stable_ptr, DESTRUCT_MATCH, Severity.warning⟩]
          else
            some [⟨m.stable_ptr, MATCH_FOR_EQUALITY, Severity.warning⟩])
       else some []) := by
  have e1 := stepArm_eq (false, false) a1 h1
  have e2 := stepArm_eq (emptyWildcardArm a1 || false, armDestrFlag a1 false) a2 h2
  unfold check_destruct_match
  rw [hm]
  simp only [List.length_cons, List.length_nil, List.foldlM, bind, Option.bind, e1, e2]
  cases hw1 : emptyWildcardArm a1 <;> cases hw2 : emptyWildcardArm a2 <;>
    cases hB : armDestrFlag a2 (armDestrFlag a1 false) <;>
    simp_all

/-- Folding the arm loop over arms that all have a non-empty pattern list
never panics. -/
theorem foldlM_stepArm_isSome (arms : List MatchArm) :
    ∀ flags : Bool × Bool, (∀ a ∈ arms, a.patterns ≠ []) →
      (List.foldlM stepArm flags arms).isSome = true := by
  induction arms with
  | nil => intro flags _; rfl
  | cons a as ih =>
      intro flags h
      have ha : a.patterns ≠ [] := h a (List.mem_cons_self a as)
      have has : ∀ b ∈ as, b.patterns ≠ [] := fun b hb => h b (List.mem_cons_of_mem a hb)
      simp only [List.foldlM, stepArm_eq flags a ha, Option.bind_eq_bind, Option.some_bind]
      exact ih _ has

/-- stepArm reads only the arm's first pattern and its body expression. -/
theorem stepArm_congr (f : Bool × Bool) (a b : MatchArm)
    (hh : a.patterns.head? = b.patterns.head?) (he : a.expression = b.expression) :
    stepArm f a = stepArm f b := by
  unfold stepArm
  rw [hh, he]

/-- The arm loop reads only each arm's first pattern and body expression. -/
theorem foldlM_stepArm_congr (xs : List MatchArm) :
    ∀ ys : List MatchArm,
      xs.map (fun a => (a.patterns.head?, a.expression)) =
        ys.map (fun a => (a.patterns.head?, a.expression)) →
      ∀ f : Bool × Bool, List.foldlM stepArm f xs = List.foldlM stepArm f ys := by
  induction xs with
  | nil =>
      intro ys h f
      cases ys with
      | nil => rfl
      | cons b bs => simp at h
  | cons a as ih =>
      intro ys h f
      cases ys with
      | nil => simp at h
      | cons b bs =>
          simp only [List.map_cons, List.cons.injEq, Prod.mk.injEq] at h
          obtain ⟨⟨hh, he⟩, htl⟩ := h
          simp only [List.foldlM]
          rw [stepArm_congr f a b hh he]
          cases stepArm f b with
          | none => rfl
          | some f2 =>
              simp only [Option.bind_eq_bind, Option.some_bind]
              exact ih bs htl f2

/-- C1: the claim says a failed semantic-body lookup of a free-function item
is skipped and the remaining items' diagnostics are still returned.  The code
instead calls `.unwrap().unwrap()` on the lookup (plugin.rs line 143), so the
whole pass panics (embedded as `none`): with the failing item present the
analysis aborts, while the same module without it yields one diagnostic. -/
theorem resolution_failure_aborts_analysis :
    analyze (some failingModule) = none ∧
    analyze (some [ModuleItemId.freeFunction (some okFunctionBody)]) =
      some [⟨5, REDUNDANT_PARENS_MSG, Severity.warning⟩] :=
  ⟨rfl, rfl⟩

/-- C3 counterexample: on Scenario A — `Shape::Circle(())` against an empty
wildcard arm — check_destruct_match emits one DestructuringMatch diagnostic,
not the MatchForEquality diagnostic the claim asserts: the parenthesized
inner node renders as the non-empty text "(())", so is_destructuring is set. -/
theorem scenarioA_not_match_for_equality :
    check_destruct_match scenarioA = some [⟨7, DESTRUCT_MATCH, Severity.warning⟩] ∧
    check_destruct_match scenarioA ≠ some [⟨7, MATCH_FOR_EQUALITY, Severity.warning⟩] := by
  exact ⟨rfl, by decide⟩

/-- C3 amended: Scenario A emits exactly one DestructuringMatch diagnostic at
the match expression; an enum pattern counts as having empty inner
destructuring text only when it has no parentheses at all, as in
`Shape::Circle`, for which exactly one MatchForEquality is emitted. -/
theorem scenarioA_destructuring_and_bare_equality :
    check_destruct_match scenarioA = some [⟨7, DESTRUCT_MATCH, Severity.warning⟩] ∧
    check_destruct_match scenarioABare = some [⟨7, MATCH_FOR_EQUALITY, Severity.warning⟩] :=
  ⟨rfl, rfl⟩

/-- C4: the claim says every diagnostic emitted by analyze classifies back to
its rule's LintKind, never Unknown.  The empty-enum-parentheses rule emits
"This enum variant has redundant parentheses and can be simplified."
(plugin.rs line 115), but the classifier only recognizes the unused constant
EMPTY_WITH_BRACKETS (plugin.rs line 43), so the emitted message classifies to
Unknown: here analyze emits exactly that diagnostic and classifying its
message yields Unknown. -/
theorem emitted_message_classifies_to_unknown :
    analyze (some [ModuleItemId.freeFunction (some okFunctionBody)]) =
      some [⟨5, REDUNDANT_PARENS_MSG, Severity.warning⟩] ∧
    diagnostic_kind_from_message REDUNDANT_PARENS_MSG = CairoLintKind.Unknown ∧
    REDUNDANT_PARENS_MSG ≠ EMPTY_WITH_BRACKETS := by
  refine ⟨rfl, by decide, by decide⟩

/-- C5: a match expression whose arm count is not exactly two yields no
diagnostic from check_destruct_match, whatever its arms hold: the arm loop is
guarded by arms.len() == 2, so both flags stay false and the final match
falls into the silent branch. -/
theorem arity_guard_no_diagnostic (m : ExprMatch) (h : m.arms.length ≠ 2) :
    check_destruct_match m = some [] := by
  unfold check_destruct_match
  simp [h]

/-- C5 witness: a concrete three-armed match yields no diagnostic. -/
theorem arity_guard_no_diagnostic_witness :
    check_destruct_match
      ⟨[⟨[Pat.underscore], Expr_.block []⟩,
        ⟨[Pat.underscore], Expr_.block []⟩,
        ⟨[Pat.underscore], Expr_.block []⟩], 3⟩ = some [] :=
  arity_guard_no_diagnostic _ (by decide)

/-- C6: for a pattern node of kind PatternEnum, check_variant returns a
Warning diagnostic anchored at the node's own stable pointer exactly when the
node's rendered source text contains the substring "()" — a purely textual
containment test (is_redundant_parentheses). -/
theorem check_variant_textual (p : Pat) (ptr : Nat)
    (h : patKind p = SyntaxKind.PatternEnum) :
    check_variant p ptr =
      (if strContains (patText p) "()" = true then
         some ⟨ptr, REDUNDANT_PARENS_MSG, Severity.warning⟩
       else none) := by
  unfold check_variant is_redundant_parentheses
  rw [h]
  simp

/-- C6 witness: the pattern `Shape::Circle(())` has kind PatternEnum, its
text "Shape::Circle(())" contains "()", and check_variant flags it at its own
pointer. -/
theorem check_variant_textual_witness :
    check_variant (Pat.enum "Shape::Circle" (some (Pat.tuple []))) 5 =
      (if strContains (patText (Pat.enum "Shape::Circle" (some (Pat.tuple [])))) "()" = true
       then some ⟨5, REDUNDANT_PARENS_MSG, Severity.warning⟩
       else none) :=
  check_variant_textual (Pat.enum "Shape::Circle" (some (Pat.tuple []))) 5 rfl

/-- C8: diagnostic_kind_from_message is total: each of the three canonical
message constants maps to its corresponding lint kind, and any other text
maps to Unknown. -/
theorem classifier_total :
    diagnostic_kind_from_message DESTRUCT_MATCH = CairoLintKind.DestructMatch ∧
    diagnostic_kind_from_message MATCH_FOR_EQUALITY = CairoLintKind.MatchForEquality ∧
    diagnostic_kind_from_message EMPTY_WITH_BRACKETS = CairoLintKind.EmptyWithBrackets ∧
    ∀ s : String, s ≠ DESTRUCT_MATCH → s ≠ MATCH_FOR_EQUALITY → s ≠ EMPTY_WITH_BRACKETS →
      diagnostic_kind_from_message s = CairoLintKind.Unknown := by
  refine ⟨by decide, by decide, by decide, ?_⟩
  intro s h1 h2 h3
  simp [diagnostic_kind_from_message, h1, h2, h3]

/-- C8 witness: an arbitrary unrecognized message classifies to Unknown, and
the three canonical constants round-trip. -/
theorem classifier_total_witness :
    diagnostic_kind_from_message "some other message" = CairoLintKind.Unknown ∧
    diagnostic_kind_from_message DESTRUCT_MATCH = CairoLintKind.DestructMatch :=
  ⟨classifier_total.2.2.2 "some other message" (by decide) (by decide) (by decide),
   classifier_total.1⟩

/-- C2: on a two-armed match (arms with their grammatical at-least-one
pattern), check_destruct_match emits exactly one MatchForEquality diagnostic
at the match expression when some arm is a wildcard with an empty body and no
arm is a destructuring (enum pattern with non-empty rendered inner text, or
struct pattern with non-empty rendered text); exactly one DestructuringMatch
diagnostic when some arm is such a wildcard and some arm is such a
destructuring; and nothing when no arm is an empty wildcard arm. -/
theorem two_arm_classification (m : ExprMatch) (a1 a2 : MatchArm)
    (hm : m.arms = [a1, a2]) (h1 : a1.patterns ≠ []) (h2 : a2.patterns ≠ []) :
    ((emptyWildcardArm a1 || emptyWildcardArm a2) = true →
       ((destructuringArm a1 || destructuringArm a2) = false →
          check_destruct_match m =
            some [⟨m.stable_ptr, MATCH_FOR_EQUALITY, Severity.warning⟩]) ∧
       ((destructuringArm a1 || destructuringArm a2) = true →
          check_destruct_match m =
            some [⟨m.stable_ptr, DESTRUCT_MATCH, Severity.warning⟩])) ∧
    ((emptyWildcardArm a1 || emptyWildcardArm a2) = false →
       check_destruct_match m = some []) := by
  rw [check_destruct_match_two m a1 a2 hm h1 h2]
  refine ⟨fun hew => ⟨fun hnd => ?_, fun hd => ?_⟩, fun hno => ?_⟩
  · have hnd' : destructuringArm a1 = false ∧ destructuringArm a2 = false := by
      constructor <;> cases hx1 : destructuringArm a1 <;> cases hx2 : destructuringArm a2 <;>
        simp_all
    have hflag : armDestrFlag a2 (armDestrFlag a1 false) = false := by
      rw [armDestrFlag_eq, armDestrFlag_eq]
      cases hE2 : enumStructHead a2 <;> cases hE1 : enumStructHead a1 <;>
        simp [hnd'.1, hnd'.2]
    simp [hew, hflag]
  · have hflag : armDestrFlag a2 (armDestrFlag a1 false) = true := by
      rw [armDestrFlag_eq, armDestrFlag_eq]
      cases hd2 : destructuringArm a2 with
      | true =>
          rw [destructuringArm_enumStructHead a2 hd2]
          simp [hd2]
      | false =>
          have hd1 : destructuringArm a1 = true := by
            cases hx : destructuringArm a1 <;> simp_all
          have hes1 : enumStructHead a1 = true := destructuringArm_enumStructHead a1 hd1
          have hw1 : emptyWildcardArm a1 = false := by
            cases hw : emptyWildcardArm a1
            · rfl
            · exact absurd (emptyWildcardArm_not_destructuringArm a1 hw)
                (by simp [hd1])
          have hw2 : emptyWildcardArm a2 = true := by
            cases hw : emptyWildcardArm a2 <;> simp_all
          have hes2 : enumStructHead a2 = false :=
            emptyWildcardArm_not_enumStructHead a2 hw2
          simp [hes2, hes1, hd1]
    simp [hew, hflag]
  · simp [hno]

/-- C2 witness: an empty wildcard arm paired with the destructuring arm
`Option::Some(x)` (non-empty body) yields exactly one DestructuringMatch
diagnostic at the match's pointer 9. -/
theorem two_arm_classification_witness :
    check_destruct_match
      ⟨[⟨[Pat.underscore], Expr_.block []⟩,
        ⟨[Pat.enum "Option::Some" (some (Pat.ident "x"))], Expr_.block [Stmt.otherStmt]⟩], 9⟩
      = some [⟨9, DESTRUCT_MATCH, Severity.warning⟩] :=
  ((two_arm_classification
      ⟨[⟨[Pat.underscore], Expr_.block []⟩,
        ⟨[Pat.enum "Option::Some" (some (Pat.ident "x"))], Expr_.block [Stmt.otherStmt]⟩], 9⟩
      ⟨[Pat.underscore], Expr_.block []⟩
      ⟨[Pat.enum "Option::Some" (some (Pat.ident "x"))], Expr_.block [Stmt.otherStmt]⟩
      rfl (by simp) (by simp)).1 rfl).2 rfl

/-- C7 counterexample: the claim says arm classification never hits a partial
operation for any input tree, but the loop reads `patterns[0]` (plugin.rs
line 57), which is out of bounds for an arm whose pattern list is empty: on
such a two-armed match the code panics (embedded as `none`). -/
theorem empty_pattern_list_panics :
    check_destruct_match
      ⟨[⟨[], Expr_.block []⟩, ⟨[Pat.underscore], Expr_.block []⟩], 1⟩ = none :=
  rfl

/-- C7 amended: for every match all of whose arms have a non-empty pattern
list (as the grammar guarantees for parsed match arms), check_destruct_match
is total — the arm classification always reaches its explicit no-match branch
rather than failing; the `patterns[0]` read is partial only on an arm with an
empty pattern list. -/
theorem total_on_nonempty_pattern_lists (m : ExprMatch)
    (h : ∀ a ∈ m.arms, a.patterns ≠ []) :
    (check_destruct_match m).isSome = true := by
  unfold check_destruct_match
  by_cases h2 : m.arms.length = 2
  · rw [if_pos h2]
    have hs := foldlM_stepArm_isSome m.arms (false, false) h
    rcases hfold : List.foldlM stepArm (false, false) m.arms with _ | ⟨b1, b2⟩
    · rw [hfold] at hs
      simp at hs
    · cases b1 <;> cases b2 <;> rfl
  · rw [if_neg h2]
    rfl

/-- C7 amended witness: a concrete two-armed match with one-pattern arms is
classified without panicking. -/
theorem total_on_nonempty_pattern_lists_witness :
    (check_destruct_match
      ⟨[⟨[Pat.underscore], Expr_.block []⟩,
        ⟨[Pat.ident "x"], Expr_.block []⟩], 4⟩).isSome = true :=
  total_on_nonempty_pattern_lists _ (by
    intro a ha
    cases ha with
    | head => simp
    | tail _ h =>
        cases h with
        | head => simp
        | tail _ h2 => cases h2)

/-- C9: a module item of kind ExternFunction contributes zero diagnostics and
is never traversed: its itemDiagnostics branch returns the empty list without
visiting any descendant, and removing the item from the module leaves the
analysis result unchanged. -/
theorem extern_function_contributes_nothing :
    itemDiagnostics ModuleItemId.externFunction = some [] ∧
    ∀ xs ys : List ModuleItemId,
      analyze (some (xs ++ ModuleItemId.externFunction :: ys)) =
        analyze (some (xs ++ ys)) := by
  refine ⟨rfl, ?_⟩
  intro xs ys
  simp only [analyze]
  induction xs with
  | nil =>
      simp [collect, itemDiagnostics]
  | cons i is ih =>
      simp only [List.cons_append, collect, List.append_eq, ih]

/-- C10: check_destruct_match reads only the first pattern of each arm's
pattern list (patterns[0]) and the arm's body: two matches whose arms agree
on first pattern and body — whatever alternative patterns follow — produce
identical results. -/
theorem first_pattern_only (m1 m2 : ExprMatch)
    (hp : m1.stable_ptr = m2.stable_ptr)
    (h : m1.arms.map (fun a => (a.patterns.head?, a.expression)) =
         m2.arms.map (fun a => (a.patterns.head?, a.expression))) :
    check_destruct_match m1 = check_destruct_match m2 := by
  have hlen : m1.arms.length = m2.arms.length := by
    have hl := congrArg List.length h
    simpa using hl
  unfold check_destruct_match
  rw [hp, hlen, foldlM_stepArm_congr m1.arms m2.arms h (false, false)]

/-- C10 witness: adding a second alternative pattern (an enum pattern on the
wildcard arm, a wildcard on the other arm) changes nothing. -/
theorem first_pattern_only_witness :
    check_destruct_match
      ⟨[⟨[Pat.underscore, Pat.enum "A" none], Expr_.block []⟩,
        ⟨[Pat.ident "x"], Expr_.block []⟩], 2⟩ =
    check_destruct_match
      ⟨[⟨[Pat.underscore], Expr_.block []⟩,
        ⟨[Pat.ident "x", Pat.underscore], Expr_.block []⟩], 2⟩ :=
  first_pattern_only _ _ rfl rfl

end CairoLint
